import Mathlib

/-!
Verification development for the Papero demo CLI
(`src/cli/src/papero_cli.py` and `src/cli/src/core/config.py`).

The Python source is shallowly embedded below:

* JSON response bodies become the inductive `Json`; Python subscripting
  `body["k"]` (raising `KeyError`/`TypeError`) becomes `subscriptStr`;
  Python `dict.get` becomes `dictGet`.
* The poll loop `poll_for_pdf` (papero_cli.py lines 38-50) becomes a
  fuel-indexed recursion over an oracle `net : Nat → NetResult` giving the
  service's answer to the k-th status request.  Each iteration's behaviour
  is factored into `pollStep`, and the loop emits a trace of `PollEvent`s
  (requests issued, progress-complete updates, sleeps).
* The batch coordinator `handle_post_template_jobs` (lines 72-91) becomes a
  sequential creation phase (`createJobsAux`, mirroring the `for` loop that
  awaits each `post_template_job` before appending the un-started
  `poll_for_pdf` coroutine) followed by a scheduler-interleaved run of the
  poll tasks (`runTasks`, mirroring `asyncio.gather`: coroutines only start
  executing once gathered, and a schedule `sched : List Nat` chooses which
  task advances at each cooperative step).
-/

namespace Papero

/-- JSON values as returned by `httpx.Response.json()`.  Python `None` is
`Json.null`; dicts are association lists (keys assumed distinct). -/
inductive Json : Type
  | null : Json
  | bool : Bool → Json
  | num : Int → Json
  | str : String → Json
  | arr : List Json → Json
  | obj : List (String × Json) → Json

/-- Association-list lookup on a JSON object's fields. -/
def lookupKey : List (String × Json) → String → Option Json
  | [], _ => none
  | (k', v) :: rest, k => if k' = k then some v else lookupKey rest k

/-- Python `d.get(k)`: on a dict, the value or `None`; on a non-dict
receiver `.get` raises `AttributeError`, modelled as `none`. -/
def dictGet (j : Json) (k : String) : Option Json :=
  match j with
  | .obj kvs => some ((lookupKey kvs k).getD .null)
  | _ => none

/-- Exceptions raised by Python subscripting that line 47 of the source
catches: `KeyError` (dict without the key) and `TypeError` (subscripting a
non-dict with a string key, or subscripting `None`). -/
inductive PyExc : Type
  | keyError : PyExc
  | typeError : PyExc

/-- Python `j["k"]` for a string key. -/
def subscriptStr (j : Json) (k : String) : Except PyExc Json :=
  match j with
  | .obj kvs =>
    match lookupKey kvs k with
    | some v => Except.ok v
    | none => Except.error .keyError
  | _ => Except.error .typeError

/-- Line 45 of the source: `doc_req.json()["document"]["url"]`. -/
def extract_doc_url (body : Json) : Except PyExc Json :=
  (subscriptStr body "document").bind (fun d => subscriptStr d "url")

/-- An HTTP response as far as the client looks at it: status code and
decoded JSON body. -/
structure Response : Type where
  status_code : Nat
  body : Json

/-- Outcome of one network call: a response, or a transport-level failure
(connection error / HTTP-layer timeout) raised by `httpx`. -/
inductive NetResult : Type
  | ok : Response → NetResult
  | transportError : NetResult

/-- What one iteration of the `while pdf_link is None` loop (lines 40-49)
does with the response to its status request. -/
inductive PollStep : Type
  | raiseTransport : PollStep
  /-- extraction succeeded with a non-`None` value: `progress.update` runs,
  the loop condition fails, the value is returned. -/
  | returnLink : Json → PollStep
  /-- extraction succeeded with `None`: `progress.update` runs but
  `pdf_link is None` still holds, so the loop repeats with no sleep. -/
  | progressContinue : PollStep
  /-- status 200 but extraction raised `KeyError`/`TypeError`:
  `await asyncio.sleep(0.3)` then `continue`. -/
  | sleepRetry : PollStep
  /-- non-200 status: the `if` body is skipped, the loop repeats at once. -/
  | immediateRetry : PollStep

/-- Direct transcription of the loop body, lines 42-49 of the source. -/
def pollStep : NetResult → PollStep
  | .transportError => .raiseTransport
  | .ok resp =>
    if resp.status_code = 200 then
      match extract_doc_url resp.body with
      | .ok .null => .progressContinue
      | .ok v => .returnLink v
      | .error _ => .sleepRetry
    else .immediateRetry

/-- True for the three loop-repeating cases of `pollStep`. -/
def PollStep.isRetry : PollStep → Bool
  | .progressContinue => true
  | .sleepRetry => true
  | .immediateRetry => true
  | _ => false

/-- Observable events of one poll loop: the k-th status GET, the
`progress.update(task, completed=100)` call, and `asyncio.sleep` with its
duration in milliseconds. -/
inductive PollEvent : Type
  | request : Nat → PollEvent
  | progressComplete : PollEvent
  | sleep : Nat → PollEvent

/-- Result of running the poll loop with bounded fuel: the loop as written
has no bound, so `outOfFuel` marks a run that was still looping. -/
inductive PollResult : Type
  | found : Json → PollResult
  | transportError : PollResult
  | outOfFuel : PollResult

/-- The poll loop `poll_for_pdf` (lines 38-50), over the oracle `net`
giving the response to the k-th status request, starting at request index
`k`, with `fuel` remaining iterations.  Returns the event trace and the
outcome. -/
def poll_for_pdf (net : Nat → NetResult) : Nat → Nat → List PollEvent × PollResult
  | _, 0 => ([], .outOfFuel)
  | k, fuel + 1 =>
    match pollStep (net k) with
    | .raiseTransport => ([.request k], .transportError)
    | .returnLink v => ([.request k, .progressComplete], .found v)
    | .progressContinue =>
      let r := poll_for_pdf net (k + 1) fuel
      (.request k :: .progressComplete :: r.1, r.2)
    | .sleepRetry =>
      let r := poll_for_pdf net (k + 1) fuel
      (.request k :: .sleep 300 :: r.1, r.2)
    | .immediateRetry =>
      let r := poll_for_pdf net (k + 1) fuel
      (.request k :: r.1, r.2)

/-- Number of status requests in a poll trace. -/
def countRequests : List PollEvent → Nat
  | [] => 0
  | .request _ :: tr => countRequests tr + 1
  | _ :: tr => countRequests tr

/-- Number of sleeps in a poll trace. -/
def countSleeps : List PollEvent → Nat
  | [] => 0
  | .sleep _ :: tr => countSleeps tr + 1
  | _ :: tr => countSleeps tr

/-- Helper for `retriesSlept`: the flag records whether a sleep has
occurred since the most recent request (initially true, so the first
request needs no preceding sleep). -/
def gapsHaveSleep : List PollEvent → Bool → Bool
  | [], _ => true
  | .sleep _ :: rest, _ => gapsHaveSleep rest true
  | .request _ :: rest, slept => slept && gapsHaveSleep rest false
  | .progressComplete :: rest, slept => gapsHaveSleep rest slept

/-- Formalisation of the claim wording that every poll attempt after the
first is preceded by the fixed wait: between any two consecutive request
events of the trace there is a sleep event. -/
def retriesSlept (tr : List PollEvent) : Bool := gapsHaveSleep tr true

/-- Lowercase hex digit, as used by `json.dumps` in unicode escapes. -/
def hexDigitLower (n : Nat) : Char :=
  if n < 10 then Char.ofNat (48 + n) else Char.ofNat (87 + n)

/-- Four lowercase hex digits (basic-multilingual-plane code points). -/
def hex4 (n : Nat) : String :=
  String.mk [hexDigitLower (n / 4096 % 16), hexDigitLower (n / 256 % 16),
    hexDigitLower (n / 16 % 16), hexDigitLower (n % 16)]

/-- Escaping of one character inside a JSON string literal, following
`json.dumps` with its default `ensure_ascii=True` (non-BMP code points,
which Python writes as surrogate pairs, are out of the modelled range). -/
def jsonEscapeChar (c : Char) : String :=
  if c = '"' then "\\\""
  else if c = '\\' then "\\\\"
  else if c = '\n' then "\\n"
  else if c = '\t' then "\\t"
  else if c = '\r' then "\\r"
  else if c.toNat = 8 then "\\b"
  else if c.toNat = 12 then "\\f"
  else if c.toNat < 32 || 126 < c.toNat then "\\u" ++ hex4 c.toNat
  else String.singleton c

/-- Escaping of a whole JSON string body. -/
def jsonEscape (s : String) : String :=
  String.join (s.data.map jsonEscapeChar)

mutual

/-- Python `json.dumps` with its default separators: object entries are
joined by a comma-space and keys are followed by a colon-space. -/
def jsonDumps : Json → String
  | .null => "null"
  | .bool true => "true"
  | .bool false => "false"
  | .num n => toString n
  | .str s => "\"" ++ jsonEscape s ++ "\""
  | .arr xs => "[" ++ jsonDumpsArr xs ++ "]"
  | .obj kvs => "\x7b" ++ jsonDumpsObj kvs ++ "\x7d"

/-- Array elements of `jsonDumps`, comma-space separated. -/
def jsonDumpsArr : List Json → String
  | [] => ""
  | [x] => jsonDumps x
  | x :: y :: rest => jsonDumps x ++ ", " ++ jsonDumpsArr (y :: rest)

/-- Object entries of `jsonDumps`, comma-space separated. -/
def jsonDumpsObj : List (String × Json) → String
  | [] => ""
  | [(k, v)] => "\"" ++ jsonEscape k ++ "\": " ++ jsonDumps v
  | (k, v) :: p :: rest =>
    "\"" ++ jsonEscape k ++ "\": " ++ jsonDumps v ++ ", " ++ jsonDumpsObj (p :: rest)

end

mutual

/-- Python `repr` of a JSON-shaped value (`None`, `True`, numbers,
single-quoted strings, lists, dicts).  The escaping Python applies inside
single-quoted string reprs is omitted; no claim exercises it. -/
def pyRepr : Json → String
  | .null => "None"
  | .bool true => "True"
  | .bool false => "False"
  | .num n => toString n
  | .str s => "'" ++ s ++ "'"
  | .arr xs => "[" ++ pyReprArr xs ++ "]"
  | .obj kvs => "\x7b" ++ pyReprObj kvs ++ "\x7d"

/-- List elements of `pyRepr`. -/
def pyReprArr : List Json → String
  | [] => ""
  | [x] => pyRepr x
  | x :: y :: rest => pyRepr x ++ ", " ++ pyReprArr (y :: rest)

/-- Dict entries of `pyRepr`. -/
def pyReprObj : List (String × Json) → String
  | [] => ""
  | [(k, v)] => "'" ++ k ++ "': " ++ pyRepr v
  | (k, v) :: p :: rest => "'" ++ k ++ "': " ++ pyRepr v ++ ", " ++ pyReprObj (p :: rest)

end

/-- Python `str()` of a JSON-shaped value, as interpolated by an f-string:
scalars print their text, containers print their repr. -/
def pyStr : Json → String
  | .null => "None"
  | .bool true => "True"
  | .bool false => "False"
  | .num n => toString n
  | .str s => s
  | .arr xs => pyRepr (.arr xs)
  | .obj kvs => pyRepr (.obj kvs)

/-- Settings of `core/config.py`: `PAPERO_SERVER` defaults to
`https://papero.io` and may be overridden through the environment. -/
structure Settings : Type where
  PAPERO_SERVER : String

/-- The default settings value (no environment override). -/
def defaultSettings : Settings := ⟨"https://papero.io"⟩

/-- Line 15 of the source: `f"{settings.PAPERO_SERVER}/api/v1/{suffix}"`. -/
def api_url (s : Settings) (suffix : String) : String :=
  s.PAPERO_SERVER ++ "/api/v1/" ++ suffix

/-- Default value of `template_url`'s `template_server` parameter
(line 20). -/
def defaultTemplateServer : String := "https://demo.papero.io/templates"

/-- Lines 19-23: `json_data = json.dumps(data)` then
`f"{template_server}/{template}?data={json_data}"`. -/
def template_url (template : String) (data : Json) (template_server : String) : String :=
  template_server ++ "/" ++ template ++ "?data=" ++ jsonDumps data

/-- The JSON payload `{resource, input_type}` POSTed to `api_url "jobs/"`
by `post_job` (lines 32-35), together with the target URL. -/
structure JobRequest : Type where
  url : String
  resource : String
  input_type : String

/-- Lines 32-35: POST to the jobs endpoint. -/
def post_job (s : Settings) (resource : String) (input_type : String) : JobRequest :=
  ⟨api_url s "jobs/", resource, input_type⟩

/-- Lines 26-29: a template job is a plain job whose resource is the
template URL (with the default template server) and whose input type is
`"url"`. -/
def post_template_job (s : Settings) (template : String) (data : Json) : JobRequest :=
  post_job s (template_url template data defaultTemplateServer) "url"

/-- Line 42: the URL of a status request, `api_url(f"jobs/{job_id}")`,
for a job id taken from a creation response body. -/
def statusRequestUrl (s : Settings) (job_id : Json) : String :=
  api_url s ("jobs/" ++ pyStr job_id)

/-- Modelled from the spec wording `urlencoded-json` of §6: percent-encode
every character outside the set Python's `urllib.parse.quote` leaves
untouched (alphanumerics, `_`, `.`, `-`, `~` and the default-safe `/`),
using uppercase hex.  The source has no such encoding step; this
definition exists to compare the spec's wording with the source. -/
def urlquoteSpec (str : String) : String :=
  String.join (str.data.map (fun c =>
    if c.isAlphanum || c = '_' || c = '.' || c = '-' || c = '~' || c = '/' then
      String.singleton c
    else
      String.mk ['%', (if c.toNat / 16 % 16 < 10 then Char.ofNat (48 + c.toNat / 16 % 16)
          else Char.ofNat (55 + c.toNat / 16 % 16)),
        (if c.toNat % 16 < 10 then Char.ofNat (48 + c.toNat % 16)
          else Char.ofNat (55 + c.toNat % 16))]))

/-- State of one gathered `poll_for_pdf` coroutine: `running k` is about to
issue its k-th status request; `done v` returned `v`; `failed` raised a
transport error. -/
inductive TaskState : Type
  | running : Nat → TaskState
  | done : Json → TaskState
  | failed : TaskState

/-- One cooperative step of a poll task (one iteration of the
`while pdf_link is None` loop); finished tasks do not change. -/
def taskStep (net : Nat → NetResult) : TaskState → TaskState
  | .running k =>
    match pollStep (net k) with
    | .raiseTransport => .failed
    | .returnLink v => .done v
    | _ => .running (k + 1)
  | s => s

/-- Iterate a function n times, first application innermost. -/
def iterN (f : α → α) : Nat → α → α
  | 0, x => x
  | n + 1, x => iterN f n (f x)

/-- Number of occurrences of `j` in a schedule. -/
def countOcc (j : Nat) : List Nat → Nat
  | [] => 0
  | a :: rest => (if a = j then 1 else 0) + countOcc j rest

/-- Replace the element at an index of a list (out of range: unchanged). -/
def setAt : List TaskState → Nat → TaskState → List TaskState
  | [], _, _ => []
  | _ :: rest, 0, v => v :: rest
  | a :: rest, n + 1, v => a :: setAt rest n v

/-- The service environment a batch runs against: `create i` answers the
i-th job-creation POST (issued for `data[i]`), and `status i k` answers the
k-th status GET of the poll task for the i-th created job. -/
structure BatchEnv : Type where
  create : Nat → NetResult
  status : Nat → Nat → NetResult

/-- Exceptions that abort the creation phase: a transport failure of the
i-th creation POST, or `AttributeError` from calling `.get` on a non-dict
creation body. -/
inductive BatchErr : Type
  | createTransport : Nat → BatchErr
  | createAttr : Nat → BatchErr

/-- Observable events of a whole batch: the i-th creation request (with
its content), the receipt of its response, and the k-th status poll of
task i. -/
inductive BatchEvent : Type
  | createRequest : Nat → JobRequest → BatchEvent
  | createResponse : Nat → BatchEvent
  | pollRequest : Nat → Nat → BatchEvent

/-- True for poll events. -/
def BatchEvent.isPoll : BatchEvent → Bool
  | .pollRequest _ _ => true
  | _ => false

/-- The creation phase of `handle_post_template_jobs` (lines 83-88): for
each entry in order, await `post_template_job`, read
`job_req.json().get("job_id")`, and collect the job id.  The index `i`
counts the creations already made.  A transport error or `AttributeError`
raises, aborting the phase with the events so far. -/
def createJobsAux (s : Settings) (env : BatchEnv) (template : String) :
    Nat → List Json → List BatchEvent × Except BatchErr (List Json)
  | _, [] => ([], Except.ok [])
  | i, d :: rest =>
    let req := post_template_job s template d
    match env.create i with
    | .transportError => ([.createRequest i req], Except.error (.createTransport i))
    | .ok resp =>
      match dictGet resp.body "job_id" with
      | none => ([.createRequest i req, .createResponse i], Except.error (.createAttr i))
      | some jid =>
        let r := createJobsAux s env template (i + 1) rest
        (.createRequest i req :: .createResponse i :: r.1,
          r.2.map (fun tl => jid :: tl))

/-- The event trace the creation phase produces when every creation
succeeds: request i, response i, request i+1, response i+1, ... -/
def createEvents (s : Settings) (template : String) :
    Nat → List Json → List BatchEvent
  | _, [] => []
  | i, d :: rest =>
    .createRequest i (post_template_job s template d) :: .createResponse i ::
      createEvents s template (i + 1) rest

/-- Advance the task chosen by the scheduler (out-of-range choices are
no-ops). -/
def stepTasks (nets : List (Nat → NetResult)) (states : List TaskState)
    (j : Nat) : List TaskState :=
  match nets[j]?, states[j]? with
  | some net, some st => setAt states j (taskStep net st)
  | _, _ => states

/-- Run the gathered poll tasks under a schedule, emitting a poll-request
event whenever a still-running task is advanced. -/
def runTasks (nets : List (Nat → NetResult)) :
    List TaskState → List Nat → List BatchEvent × List TaskState
  | states, [] => ([], states)
  | states, j :: rest =>
    let ev : List BatchEvent :=
      match states[j]? with
      | some (.running k) => [.pollRequest j k]
      | _ => []
    let r := runTasks nets (stepTasks nets states j) rest
    (ev ++ r.1, r.2)

/-- When every task has returned, the list of their values in task order;
otherwise `none`. -/
def allDone : List TaskState → Option (List Json)
  | [] => some []
  | .done v :: rest => (allDone rest).map (fun vs => v :: vs)
  | _ :: _ => none

/-- Whether some task raised. -/
def anyFailed (states : List TaskState) : Bool :=
  states.any (fun st => match st with | .failed => true | _ => false)

/-- Outcome of a whole batch call. -/
inductive BatchOutcome : Type
  /-- `asyncio.gather` resolved: the pdf list, in submission order. -/
  | results : List Json → BatchOutcome
  /-- an exception raised during the creation phase. -/
  | raisedCreate : BatchErr → BatchOutcome
  /-- a transport error raised inside some poll task; `gather` re-raises
  it, so no list is returned. -/
  | raisedPoll : BatchOutcome
  /-- the schedule ended with tasks still pending (the await has not
  resolved). -/
  | pending : BatchOutcome

/-- What awaiting `asyncio.gather` observes in a final task configuration. -/
def gatherOutcome (states : List TaskState) : BatchOutcome :=
  if anyFailed states then .raisedPoll
  else
    match allDone states with
    | some vs => .results vs
    | none => .pending

/-- The per-task oracles, in task order. -/
def statusNets (env : BatchEnv) (n : Nat) : List (Nat → NetResult) :=
  (List.range n).map env.status

/-- The batch coordinator `handle_post_template_jobs` (lines 72-91):
sequentially create one job per entry (each `post_template_job` awaited
before the next; the `poll_for_pdf(...)` coroutine objects are appended
un-started), then `asyncio.gather` runs all poll tasks under the
cooperative schedule `sched`.  Returns the full event trace and the
outcome. -/
def handle_post_template_jobs (s : Settings) (env : BatchEnv)
    (template : String) (data : List Json) (sched : List Nat) :
    List BatchEvent × BatchOutcome :=
  let c := createJobsAux s env template 0 data
  match c.2 with
  | .error e => (c.1, .raisedCreate e)
  | .ok jids =>
    let r := runTasks (statusNets env jids.length)
      (List.replicate jids.length (.running 0)) sched
    (c.1 ++ r.1, gatherOutcome r.2)

/-- The single-entry template command (lines 152-163):
`handle_post_template_jobs(token, template, [data]).result()[0]`.  `none`
models an exception propagating (a batch failure, or `IndexError` from
`[0]`). -/
def add_job_template (s : Settings) (env : BatchEnv) (template : String)
    (d : Json) (sched : List Nat) : Option Json :=
  match (handle_post_template_jobs s env template [d] sched).2 with
  | .results pdfs => pdfs[0]?
  | _ => none

/-! Lemmas about the scheduler machinery. -/

theorem length_setAt (l : List TaskState) : ∀ (j : Nat) (v : TaskState),
    (setAt l j v).length = l.length := by
  induction l with
  | nil => intro j v; rfl
  | cons a rest ih =>
    intro j v
    cases j with
    | zero => rfl
    | succ n => simp [setAt, ih]

theorem getElem?_setAt_self (l : List TaskState) : ∀ (j : Nat) (v : TaskState),
    j < l.length → (setAt l j v)[j]? = some v := by
  induction l with
  | nil => intro j v h; exact absurd h (by simp)
  | cons a rest ih =>
    intro j v h
    cases j with
    | zero => simp [setAt]
    | succ n =>
      simp only [setAt, List.getElem?_cons_succ]
      exact ih n v (by simpa using h)

theorem getElem?_setAt_ne (l : List TaskState) : ∀ (i j : Nat) (v : TaskState),
    i ≠ j → (setAt l j v)[i]? = l[i]? := by
  induction l with
  | nil => intro i j v _; rfl
  | cons a rest ih =>
    intro i j v hne
    cases j with
    | zero =>
      cases i with
      | zero => exact absurd rfl hne
      | succ m => simp [setAt]
    | succ n =>
      cases i with
      | zero => simp [setAt]
      | succ m =>
        simp only [setAt, List.getElem?_cons_succ]
        exact ih m n v (fun h => hne (by omega))

theorem length_stepTasks (nets : List (Nat → NetResult)) (states : List TaskState)
    (j : Nat) : (stepTasks nets states j).length = states.length := by
  unfold stepTasks
  cases nets[j]? with
  | none => rfl
  | some net =>
    cases states[j]? with
    | none => rfl
    | some st => exact length_setAt states j (taskStep net st)

theorem lt_length_of_getElem?_eq_some {α : Type} (l : List α) (i : Nat) (a : α)
    (h : l[i]? = some a) : i < l.length := by
  by_contra hge
  rw [List.getElem?_eq_none (by omega)] at h
  exact Option.noConfusion h

theorem getElem?_stepTasks_self (nets : List (Nat → NetResult))
    (states : List TaskState) (j : Nat) (net : Nat → NetResult)
    (hn : nets[j]? = some net) :
    (stepTasks nets states j)[j]? = (states[j]?).map (taskStep net) := by
  unfold stepTasks
  rw [hn]
  cases hs : states[j]? with
  | none => simp [hs]
  | some st =>
    simp only [Option.map_some']
    exact getElem?_setAt_self states j (taskStep net st)
      (lt_length_of_getElem?_eq_some states j st hs)

theorem getElem?_stepTasks_ne (nets : List (Nat → NetResult))
    (states : List TaskState) (i j : Nat) (hne : i ≠ j) :
    (stepTasks nets states j)[i]? = states[i]? := by
  unfold stepTasks
  cases nets[j]? with
  | none => rfl
  | some net =>
    cases states[j]? with
    | none => rfl
    | some st => exact getElem?_setAt_ne states i j (taskStep net st) hne

theorem length_runTasks (nets : List (Nat → NetResult)) :
    ∀ (sched : List Nat) (states : List TaskState),
    ((runTasks nets states sched).2).length = states.length := by
  intro sched
  induction sched with
  | nil => intro states; rfl
  | cons a rest ih =>
    intro states
    simp only [runTasks]
    rw [ih (stepTasks nets states a)]
    exact length_stepTasks nets states a

theorem countOcc_cons_self (j : Nat) (rest : List Nat) :
    countOcc j (j :: rest) = countOcc j rest + 1 := by
  simp [countOcc]
  omega

theorem getElem?_runTasks (nets : List (Nat → NetResult)) (j : Nat)
    (net : Nat → NetResult) (hn : nets[j]? = some net) :
    ∀ (sched : List Nat) (states : List TaskState),
    ((runTasks nets states sched).2)[j]? =
      (states[j]?).map (iterN (taskStep net) (countOcc j sched)) := by
  intro sched
  induction sched with
  | nil =>
    intro states
    simp only [runTasks, countOcc]
    cases states[j]? <;> simp [iterN]
  | cons a rest ih =>
    intro states
    simp only [runTasks]
    rw [ih (stepTasks nets states a)]
    by_cases haj : a = j
    · subst haj
      rw [getElem?_stepTasks_self nets states a net hn, Option.map_map]
      rw [countOcc_cons_self]
      cases states[a]? with
      | none => rfl
      | some st => simp [iterN]
    · rw [getElem?_stepTasks_ne nets states j a (fun h => haj h.symm)]
      simp only [countOcc, if_neg haj, Nat.zero_add]

theorem runTasks_events_isPoll (nets : List (Nat → NetResult)) :
    ∀ (sched : List Nat) (states : List TaskState),
    ∀ e ∈ (runTasks nets states sched).1, e.isPoll = true := by
  intro sched
  induction sched with
  | nil => intro states e he; exact absurd he (by simp [runTasks])
  | cons a rest ih =>
    intro states e he
    simp only [runTasks, List.mem_append] at he
    rcases he with he | he
    · cases hs : states[a]? with
      | none => rw [hs] at he; exact absurd he (by simp)
      | some st =>
        rw [hs] at he
        cases st with
        | running k => simp at he; subst he; rfl
        | done v => exact absurd he (by simp)
        | failed => exact absurd he (by simp)
    · exact ih (stepTasks nets states a) e he

theorem iterN_done (net : Nat → NetResult) : ∀ (m : Nat) (v : Json),
    iterN (taskStep net) m (.done v) = .done v := by
  intro m
  induction m with
  | zero => intro v; rfl
  | succ n ih => intro v; exact ih v

theorem iterN_failed (net : Nat → NetResult) : ∀ (m : Nat),
    iterN (taskStep net) m .failed = .failed := by
  intro m
  induction m with
  | zero => rfl
  | succ n ih => exact ih

theorem iterN_running_done (net : Nat → NetResult) : ∀ (m k : Nat) (v : Json),
    iterN (taskStep net) m (.running k) = .done v →
    ∃ fuel tr, poll_for_pdf net k fuel = (tr, .found v) := by
  intro m
  induction m with
  | zero => intro k v h; exact absurd h (by simp [iterN])
  | succ n ih =>
    intro k v h
    simp only [iterN] at h
    cases hps : pollStep (net k) with
    | raiseTransport =>
      rw [show taskStep net (.running k) = .failed by simp [taskStep, hps]] at h
      rw [iterN_failed] at h
      exact absurd h (by simp)
    | returnLink w =>
      rw [show taskStep net (.running k) = .done w by simp [taskStep, hps]] at h
      rw [iterN_done] at h
      cases h
      exact ⟨1, [.request k, .progressComplete], by simp [poll_for_pdf, hps]⟩
    | progressContinue =>
      rw [show taskStep net (.running k) = .running (k + 1) by simp [taskStep, hps]] at h
      obtain ⟨fuel, tr, hp⟩ := ih (k + 1) v h
      exact ⟨fuel + 1, .request k :: .progressComplete :: tr, by simp [poll_for_pdf, hps, hp]⟩
    | sleepRetry =>
      rw [show taskStep net (.running k) = .running (k + 1) by simp [taskStep, hps]] at h
      obtain ⟨fuel, tr, hp⟩ := ih (k + 1) v h
      exact ⟨fuel + 1, .request k :: .sleep 300 :: tr, by simp [poll_for_pdf, hps, hp]⟩
    | immediateRetry =>
      rw [show taskStep net (.running k) = .running (k + 1) by simp [taskStep, hps]] at h
      obtain ⟨fuel, tr, hp⟩ := ih (k + 1) v h
      exact ⟨fuel + 1, .request k :: tr, by simp [poll_for_pdf, hps, hp]⟩

theorem allDone_length : ∀ (states : List TaskState) (vs : List Json),
    allDone states = some vs → vs.length = states.length := by
  intro states
  induction states with
  | nil => intro vs h; simp only [allDone, Option.some.injEq] at h; subst h; rfl
  | cons st rest ih =>
    intro vs h
    cases st with
    | done v =>
      simp only [allDone] at h
      cases hr : allDone rest with
      | none => rw [hr] at h; exact absurd h (by simp)
      | some vs' =>
        rw [hr] at h
        simp only [Option.map_some', Option.some.injEq] at h
        subst h
        simp [ih vs' hr]
    | running k => exact absurd h (by simp [allDone])
    | failed => exact absurd h (by simp [allDone])

theorem allDone_getElem? : ∀ (states : List TaskState) (vs : List Json),
    allDone states = some vs → ∀ (i : Nat),
    states[i]? = (vs[i]?).map TaskState.done := by
  intro states
  induction states with
  | nil =>
    intro vs h i
    simp only [allDone, Option.some.injEq] at h
    subst h
    simp
  | cons st rest ih =>
    intro vs h i
    cases st with
    | done v =>
      simp only [allDone] at h
      cases hr : allDone rest with
      | none => rw [hr] at h; exact absurd h (by simp)
      | some vs' =>
        rw [hr] at h
        simp only [Option.map_some', Option.some.injEq] at h
        subst h
        cases i with
        | zero => simp
        | succ m => simp only [List.getElem?_cons_succ]; exact ih vs' hr m
    | running k => exact absurd h (by simp [allDone])
    | failed => exact absurd h (by simp [allDone])

theorem createJobsAux_ok_length (s : Settings) (env : BatchEnv) (template : String) :
    ∀ (data : List Json) (i : Nat) (jids : List Json),
    (createJobsAux s env template i data).2 = .ok jids →
    jids.length = data.length := by
  intro data
  induction data with
  | nil =>
    intro i jids h
    simp only [createJobsAux, Except.ok.injEq] at h
    subst h
    rfl
  | cons d rest ih =>
    intro i jids h
    cases hce : env.create i with
    | transportError =>
      simp only [createJobsAux, hce] at h
      exact Except.noConfusion h
    | ok resp =>
      cases hdg : dictGet resp.body "job_id" with
      | none =>
        simp only [createJobsAux, hce, hdg] at h
        exact Except.noConfusion h
      | some jid =>
        simp only [createJobsAux, hce, hdg] at h
        cases hr : (createJobsAux s env template (i + 1) rest).2 with
        | error e => rw [hr] at h; exact absurd h (by simp [Except.map])
        | ok tl =>
          rw [hr] at h
          simp only [Except.map, Except.ok.injEq] at h
          subst h
          simp [ih (i + 1) tl hr]

theorem createJobsAux_ok_events (s : Settings) (env : BatchEnv) (template : String) :
    ∀ (data : List Json) (i : Nat) (jids : List Json),
    (createJobsAux s env template i data).2 = .ok jids →
    (createJobsAux s env template i data).1 = createEvents s template i data := by
  intro data
  induction data with
  | nil => intro i jids _; rfl
  | cons d rest ih =>
    intro i jids h
    cases hce : env.create i with
    | transportError =>
      simp only [createJobsAux, hce] at h
      exact Except.noConfusion h
    | ok resp =>
      cases hdg : dictGet resp.body "job_id" with
      | none =>
        simp only [createJobsAux, hce, hdg] at h
        exact Except.noConfusion h
      | some jid =>
        simp only [createJobsAux, hce, hdg] at h ⊢
        cases hr : (createJobsAux s env template (i + 1) rest).2 with
        | error e => rw [hr] at h; exact absurd h (by simp [Except.map])
        | ok tl => simp [createEvents, ih (i + 1) tl hr]

theorem length_createEvents (s : Settings) (template : String) :
    ∀ (data : List Json) (i : Nat),
    (createEvents s template i data).length = 2 * data.length := by
  intro data
  induction data with
  | nil => intro i; rfl
  | cons d rest ih =>
    intro i
    simp only [createEvents, List.length_cons, ih (i + 1), List.length_cons]
    omega

theorem createEvents_getElem_req (s : Settings) (template : String) :
    ∀ (data : List Json) (i j : Nat) (d : Json), data[j]? = some d →
    (createEvents s template i data)[2 * j]? =
      some (.createRequest (i + j) (post_template_job s template d)) := by
  intro data
  induction data with
  | nil => intro i j d h; exact absurd h (by simp)
  | cons a rest ih =>
    intro i j d h
    cases j with
    | zero =>
      simp only [List.getElem?_cons_zero, Option.some.injEq] at h
      subst h
      simp [createEvents]
    | succ m =>
      simp only [List.getElem?_cons_succ] at h
      have e2 : 2 * (m + 1) = 2 * m + 1 + 1 := by omega
      rw [e2]
      simp only [createEvents, List.getElem?_cons_succ]
      have := ih (i + 1) m d h
      rw [show i + 1 + m = i + (m + 1) by omega] at this
      exact this

theorem createEvents_getElem_resp (s : Settings) (template : String) :
    ∀ (data : List Json) (i j : Nat), j < data.length →
    (createEvents s template i data)[2 * j + 1]? =
      some (.createResponse (i + j)) := by
  intro data
  induction data with
  | nil => intro i j h; exact absurd h (by simp)
  | cons a rest ih =>
    intro i j h
    cases j with
    | zero => simp [createEvents]
    | succ m =>
      have e2 : 2 * (m + 1) + 1 = 2 * m + 1 + 1 + 1 := by omega
      rw [e2]
      simp only [createEvents, List.getElem?_cons_succ]
      have := ih (i + 1) m (by simpa using h)
      rw [show i + 1 + m = i + (m + 1) by omega] at this
      exact this

theorem statusNets_getElem? (env : BatchEnv) (n i : Nat) (h : i < n) :
    (statusNets env n)[i]? = some (env.status i) := by
  simp [statusNets, List.getElem?_map, List.getElem?_range h]

theorem countOcc_pos_of_mem (j : Nat) : ∀ (sched : List Nat),
    j ∈ sched → 0 < countOcc j sched := by
  intro sched
  induction sched with
  | nil => intro h; exact absurd h (by simp)
  | cons a rest ih =>
    intro h
    rcases List.mem_cons.mp h with h | h
    · simp [countOcc, h.symm]
    · have := ih h
      simp only [countOcc]
      omega

theorem anyFailed_of_getElem? (states : List TaskState) (i : Nat)
    (h : states[i]? = some .failed) : anyFailed states = true := by
  exact List.any_eq_true.mpr ⟨.failed, List.getElem?_mem h, rfl⟩

theorem gatherOutcome_results (states : List TaskState) (vs : List Json)
    (h : gatherOutcome states = .results vs) :
    allDone states = some vs ∧ anyFailed states = false := by
  unfold gatherOutcome at h
  by_cases hf : anyFailed states
  · rw [if_pos hf] at h; exact absurd h (by simp)
  · rw [if_neg hf] at h
    cases hd : allDone states with
    | none => rw [hd] at h; exact absurd h (by simp)
    | some vs' =>
      rw [hd] at h
      simp only [BatchOutcome.results.injEq] at h
      subst h
      exact ⟨rfl, by simpa using hf⟩

theorem gatherOutcome_failed (states : List TaskState)
    (h : anyFailed states = true) : gatherOutcome states = .raisedPoll := by
  simp [gatherOutcome, h]

theorem handle_ok (s : Settings) (env : BatchEnv) (template : String)
    (data : List Json) (sched : List Nat) (jids : List Json)
    (hc : (createJobsAux s env template 0 data).2 = .ok jids) :
    handle_post_template_jobs s env template data sched =
      ((createJobsAux s env template 0 data).1 ++
        (runTasks (statusNets env jids.length)
          (List.replicate jids.length (.running 0)) sched).1,
       gatherOutcome (runTasks (statusNets env jids.length)
          (List.replicate jids.length (.running 0)) sched).2) := by
  simp only [handle_post_template_jobs, hc]

theorem results_imp_create_ok (s : Settings) (env : BatchEnv)
    (template : String) (data : List Json) (sched : List Nat)
    (pdfs : List Json)
    (h : (handle_post_template_jobs s env template data sched).2 = .results pdfs) :
    ∃ jids, (createJobsAux s env template 0 data).2 = .ok jids := by
  cases hc : (createJobsAux s env template 0 data).2 with
  | error e =>
    simp only [handle_post_template_jobs, hc] at h
    exact BatchOutcome.noConfusion h
  | ok jids => exact ⟨jids, rfl⟩

theorem batch_results_length (s : Settings) (env : BatchEnv)
    (template : String) (data : List Json) (sched : List Nat)
    (pdfs : List Json)
    (h : (handle_post_template_jobs s env template data sched).2 = .results pdfs) :
    pdfs.length = data.length := by
  obtain ⟨jids, hc⟩ := results_imp_create_ok s env template data sched pdfs h
  rw [handle_ok s env template data sched jids hc] at h
  simp only at h
  obtain ⟨hd, _⟩ := gatherOutcome_results _ _ h
  have h1 := allDone_length _ _ hd
  have h2 := length_runTasks (statusNets env jids.length) sched
    (List.replicate jids.length (.running 0))
  rw [h2, List.length_replicate] at h1
  rw [h1]
  exact createJobsAux_ok_length s env template data 0 jids hc

theorem batch_results_poll (s : Settings) (env : BatchEnv)
    (template : String) (data : List Json) (sched : List Nat)
    (pdfs : List Json)
    (h : (handle_post_template_jobs s env template data sched).2 = .results pdfs)
    (i : Nat) (hi : i < data.length) :
    ∃ v, pdfs[i]? = some v ∧
      ∃ fuel tr, poll_for_pdf (env.status i) 0 fuel = (tr, .found v) := by
  obtain ⟨jids, hc⟩ := results_imp_create_ok s env template data sched pdfs h
  have hlen : jids.length = data.length :=
    createJobsAux_ok_length s env template data 0 jids hc
  rw [handle_ok s env template data sched jids hc] at h
  simp only at h
  obtain ⟨hd, _⟩ := gatherOutcome_results _ _ h
  have hrun := getElem?_runTasks (statusNets env jids.length) i (env.status i)
    (statusNets_getElem? env jids.length i (by omega)) sched
    (List.replicate jids.length (.running 0))
  rw [List.getElem?_replicate, if_pos (by omega : i < jids.length)] at hrun
  have hall := allDone_getElem? _ _ hd i
  rw [hrun] at hall
  have hplen : pdfs.length = data.length :=
    by
      have h1 := allDone_length _ _ hd
      have h2 := length_runTasks (statusNets env jids.length) sched
        (List.replicate jids.length (.running 0))
      rw [h2, List.length_replicate] at h1
      omega
  cases hv : pdfs[i]? with
  | none =>
    rw [List.getElem?_eq_getElem (show i < pdfs.length by omega)] at hv
    exact absurd hv (by simp)
  | some v =>
    rw [hv] at hall
    simp only [Option.map_some'] at hall
    exact ⟨v, rfl, iterN_running_done (env.status i) (countOcc i sched) 0 _
      (Option.some.inj hall)⟩

/-! Shared auxiliary lemma for the unbounded-loop claim. -/

theorem poll_retry_forever (net : Nat → NetResult)
    (hretry : ∀ j, (pollStep (net j)).isRetry = true) :
    ∀ (n k : Nat), countRequests (poll_for_pdf net k n).1 = n ∧
      (poll_for_pdf net k n).2 = .outOfFuel := by
  intro n
  induction n with
  | zero => intro k; exact ⟨rfl, rfl⟩
  | succ m ih =>
    intro k
    obtain ⟨ih1, ih2⟩ := ih (k + 1)
    cases hps : pollStep (net k) with
    | raiseTransport => exact absurd (hretry k) (by simp [hps, PollStep.isRetry])
    | returnLink v => exact absurd (hretry k) (by simp [hps, PollStep.isRetry])
    | progressContinue =>
      constructor
      · simp only [poll_for_pdf, hps, countRequests, List.countP_cons] at ih1 ⊢
        omega
      · simp [poll_for_pdf, hps, ih2]
    | sleepRetry =>
      constructor
      · simp only [poll_for_pdf, hps, countRequests, List.countP_cons] at ih1 ⊢
        omega
      · simp [poll_for_pdf, hps, ih2]
    | immediateRetry =>
      constructor
      · simp only [poll_for_pdf, hps, countRequests, List.countP_cons] at ih1 ⊢
        omega
      · simp [poll_for_pdf, hps, ih2]

/-! Concrete data used by the witnesses. -/

/-- A demo environment: every creation answers `{"job_id": "j"}`; job 0
resolves on its second status poll to `"url1"`, job 1 on its first to
`"url2"`; any further job fails. -/
def demoEnv : BatchEnv where
  create := fun _ => .ok ⟨200, .obj [("job_id", .str "j")]⟩
  status := fun i k =>
    match i, k with
    | 0, 0 => .ok ⟨200, .obj []⟩
    | 0, _ => .ok ⟨200, .obj [("document", .obj [("url", .str "url1")])]⟩
    | 1, _ => .ok ⟨200, .obj [("document", .obj [("url", .str "url2")])]⟩
    | _, _ => .transportError

/-- Two template data entries, as in the spec's batch scenario. -/
def demoData : List Json := [.obj [("a", .num 1)], .obj [("a", .num 2)]]

/-- An environment whose status endpoint always raises a transport error. -/
def transportEnv : BatchEnv where
  create := fun _ => .ok ⟨200, .obj [("job_id", .str "j")]⟩
  status := fun _ _ => .transportError

/-- A status oracle that always answers 200 with an empty body. -/
def neverReadyNet : Nat → NetResult := fun _ => .ok ⟨200, .obj []⟩

/-- A status oracle that always answers 404. -/
def notFoundNet : Nat → NetResult := fun _ => .ok ⟨404, .obj []⟩

/-! Claim theorems. -/

/-- C2: if a status poll returns HTTP 200 with a string X at
`document.url`, the poller marks its progress task complete, terminates,
and returns exactly X, issuing no further status requests — whatever fuel
remains, the trace holds exactly one request. -/
theorem c2_success_returns_url (net : Nat → NetResult) (k fuel : Nat)
    (body : Json) (x : String)
    (hresp : net k = .ok ⟨200, body⟩)
    (hurl : extract_doc_url body = .ok (.str x)) :
    poll_for_pdf net k (fuel + 1) =
      ([.request k, .progressComplete], .found (.str x)) := by
  have hps : pollStep (net k) = .returnLink (.str x) := by
    rw [hresp]; simp [pollStep, hurl]
  simp [poll_for_pdf, hps]

/-- Witness for C2 at the spec's scenario document URL. -/
theorem c2_success_returns_url_witness :
    poll_for_pdf
      (fun _ => .ok ⟨200, .obj [("document", .obj [("url", .str "https://cdn/doc.pdf")])]⟩)
      0 (5 + 1) =
      ([.request 0, .progressComplete], .found (.str "https://cdn/doc.pdf")) :=
  c2_success_returns_url _ 0 5 _ "https://cdn/doc.pdf" rfl rfl

/-- C3: a present (HTTP 200) response whose body lacks the nested
`document.url` field is treated as not ready: no exception is raised and
no result returned for that response; the poller sleeps 300 ms and then
issues the next status request. -/
theorem c3_not_ready_sleeps (net : Nat → NetResult) (k fuel : Nat)
    (body : Json) (e : PyExc)
    (hresp : net k = .ok ⟨200, body⟩)
    (hurl : extract_doc_url body = .error e) :
    poll_for_pdf net k (fuel + 1) =
      (.request k :: .sleep 300 :: (poll_for_pdf net (k + 1) fuel).1,
       (poll_for_pdf net (k + 1) fuel).2) := by
  have hps : pollStep (net k) = .sleepRetry := by
    rw [hresp]; simp [pollStep, hurl]
  simp [poll_for_pdf, hps]

/-- Witness for C3: an empty 200 body sleeps and retries. -/
theorem c3_not_ready_sleeps_witness :
    poll_for_pdf neverReadyNet 0 (1 + 1) =
      (.request 0 :: .sleep 300 :: (poll_for_pdf neverReadyNet 1 1).1,
       (poll_for_pdf neverReadyNet 1 1).2) :=
  c3_not_ready_sleeps neverReadyNet 0 1 (.obj []) .keyError rfl rfl

/-- C8: a non-200 status response is followed by the next status request
immediately (the step adds no sleep event); consequently, against an
endpoint that only ever answers non-200, the whole trace holds no sleep at
all — a busy loop. -/
theorem c8_non200_immediate (net : Nat → NetResult) (k fuel : Nat)
    (resp : Response)
    (hresp : net k = .ok resp) (hne : resp.status_code ≠ 200) :
    poll_for_pdf net k (fuel + 1) =
      (.request k :: (poll_for_pdf net (k + 1) fuel).1,
       (poll_for_pdf net (k + 1) fuel).2) ∧
    ∀ (net' : Nat → NetResult) (k' n : Nat),
      (∀ j, ∃ r, net' j = .ok r ∧ r.status_code ≠ 200) →
      countSleeps (poll_for_pdf net' k' n).1 = 0 := by
  constructor
  · have hps : pollStep (net k) = .immediateRetry := by
      rw [hresp]; simp [pollStep, hne]
    simp [poll_for_pdf, hps]
  · intro net' k' n h
    induction n generalizing k' with
    | zero => rfl
    | succ m ih =>
      obtain ⟨r, hr, hrne⟩ := h k'
      have hps : pollStep (net' k') = .immediateRetry := by
        rw [hr]; simp [pollStep, hrne]
      have := ih (k' + 1)
      simp [poll_for_pdf, hps, countSleeps] at this ⊢
      omega

/-- Witness for C8 against a constant-404 endpoint. -/
theorem c8_non200_immediate_witness :
    (poll_for_pdf notFoundNet 0 (1 + 1) =
      (.request 0 :: (poll_for_pdf notFoundNet 1 1).1,
       (poll_for_pdf notFoundNet 1 1).2) ∧
    ∀ (net' : Nat → NetResult) (k' n : Nat),
      (∀ j, ∃ r, net' j = .ok r ∧ r.status_code ≠ 200) →
      countSleeps (poll_for_pdf net' k' n).1 = 0) :=
  c8_non200_immediate notFoundNet 0 1 ⟨404, .obj []⟩ rfl (by decide)

/-- C6 counterexample: two consecutive 404 responses — each present,
unchanged, and lacking `document.url` — produce two status requests with
no sleep between them, so it is false that every non-final poll attempt is
followed by the fixed wait. -/
theorem c6_counterexample :
    poll_for_pdf notFoundNet 0 2 = ([.request 0, .request 1], .outOfFuel) ∧
    retriesSlept [PollEvent.request 0, PollEvent.request 1] = false := by
  exact ⟨rfl, rfl⟩

/-- C6 (amended): polling a job whose status responses are unchanged 200
bodies still lacking `document.url` never returns a result, and every
retry happens only after the fixed 300 ms wait — between any two status
requests of the trace there is a sleep.  (As stated the claim also covered
non-200 responses, which retry with no wait; see the counterexample.) -/
theorem c6_stable_poll_sleeps (net : Nat → NetResult) (k fuel : Nat)
    (h : ∀ j, ∃ body e, net j = .ok ⟨200, body⟩ ∧ extract_doc_url body = .error e) :
    (poll_for_pdf net k fuel).2 = .outOfFuel ∧
    retriesSlept (poll_for_pdf net k fuel).1 = true := by
  induction fuel generalizing k with
  | zero => exact ⟨rfl, rfl⟩
  | succ m ih =>
    obtain ⟨body, e, hr, he⟩ := h k
    have hps : pollStep (net k) = .sleepRetry := by
      rw [hr]; simp [pollStep, he]
    obtain ⟨ih1, ih2⟩ := ih (k + 1)
    constructor
    · simp [poll_for_pdf, hps, ih1]
    · simp only [poll_for_pdf, hps]
      simpa [retriesSlept, gapsHaveSleep] using ih2

/-- Witness for the amended C6 over three unchanged not-ready responses. -/
theorem c6_stable_poll_sleeps_witness :
    (poll_for_pdf neverReadyNet 0 3).2 = .outOfFuel ∧
    retriesSlept (poll_for_pdf neverReadyNet 0 3).1 = true :=
  c6_stable_poll_sleeps neverReadyNet 0 3
    (fun _ => ⟨.obj [], .keyError, rfl, rfl⟩)

/-- C7: the poll loop is unbounded.  A creation body that is a dict
lacking `job_id` yields `None` via `.get`, so the poller polls the
`jobs/None` endpoint; and whenever every response is a retry case (never a
document URL, never a transport error), the loop makes exactly n status
requests for every fuel bound n without ever returning. -/
theorem c7_unbounded_null_id (s : Settings) (kvs : List (String × Json))
    (net : Nat → NetResult) (k n : Nat)
    (hmiss : lookupKey kvs "job_id" = none)
    (hretry : ∀ j, (pollStep (net j)).isRetry = true) :
    dictGet (Json.obj kvs) "job_id" = some Json.null ∧
    statusRequestUrl s Json.null = api_url s "jobs/None" ∧
    countRequests (poll_for_pdf net k n).1 = n ∧
    (poll_for_pdf net k n).2 = .outOfFuel := by
  obtain ⟨h1, h2⟩ := poll_retry_forever net hretry n k
  exact ⟨by simp [dictGet, hmiss], rfl, h1, h2⟩

/-- Witness for C7: an empty creation dict and a constant-404 status
endpoint, polled with fuel 4. -/
theorem c7_unbounded_null_id_witness :
    dictGet (Json.obj []) "job_id" = some Json.null ∧
    statusRequestUrl defaultSettings Json.null = api_url defaultSettings "jobs/None" ∧
    countRequests (poll_for_pdf notFoundNet 0 4).1 = 4 ∧
    (poll_for_pdf notFoundNet 0 4).2 = .outOfFuel :=
  c7_unbounded_null_id defaultSettings [] notFoundNet 0 4 rfl (fun _ => rfl)

/-- C4: a transport-level failure propagates immediately out of the poll
loop (single request, no retry), and if any job's polling raises one under
the given schedule, the whole batch call fails, returning no list of
document URLs. -/
theorem c4_transport_fails_batch (s : Settings) (env : BatchEnv)
    (template : String) (data : List Json) (sched : List Nat)
    (i : Nat) (jids : List Json)
    (hc : (createJobsAux s env template 0 data).2 = .ok jids)
    (hi : i < jids.length) (hmem : i ∈ sched)
    (ht : env.status i 0 = .transportError) :
    (∀ (net : Nat → NetResult) (k fuel : Nat), net k = .transportError →
      poll_for_pdf net k (fuel + 1) = ([.request k], .transportError)) ∧
    (handle_post_template_jobs s env template data sched).2 = .raisedPoll ∧
    (∀ l, (handle_post_template_jobs s env template data sched).2 ≠ .results l) ∧
    (∀ (envc : BatchEnv) (d0 : Json) (rest : List Json) (schedc : List Nat),
      envc.create 0 = .transportError →
      (handle_post_template_jobs s envc template (d0 :: rest) schedc).2 =
        .raisedCreate (.createTransport 0) ∧
      ∀ l, (handle_post_template_jobs s envc template (d0 :: rest) schedc).2 ≠
        .results l) := by
  have hbatch : (handle_post_template_jobs s env template data sched).2 = .raisedPoll := by
    rw [handle_ok s env template data sched jids hc]
    apply gatherOutcome_failed
    have hrun := getElem?_runTasks (statusNets env jids.length) i (env.status i)
      (statusNets_getElem? env jids.length i hi) sched
      (List.replicate jids.length (.running 0))
    rw [List.getElem?_replicate, if_pos hi] at hrun
    simp only [Option.map_some'] at hrun
    have hpos := countOcc_pos_of_mem i sched hmem
    obtain ⟨t, hteq⟩ : ∃ t, countOcc i sched = t + 1 :=
      ⟨countOcc i sched - 1, by omega⟩
    rw [hteq] at hrun
    have hfail : iterN (taskStep (env.status i)) (t + 1) (.running 0) = .failed := by
      have hstep : taskStep (env.status i) (.running 0) = .failed := by
        simp [taskStep, pollStep, ht]
      simp only [iterN, hstep, iterN_failed]
    rw [hfail] at hrun
    exact anyFailed_of_getElem? _ i hrun
  refine ⟨?_, hbatch, ?_, ?_⟩
  · intro net k fuel hk
    have hps : pollStep (net k) = .raiseTransport := by rw [hk]; rfl
    simp [poll_for_pdf, hps]
  · intro l hl
    rw [hbatch] at hl
    exact BatchOutcome.noConfusion hl
  · intro envc d0 rest schedc hce
    have hcreate : (handle_post_template_jobs s envc template (d0 :: rest) schedc).2 =
        .raisedCreate (.createTransport 0) := by
      simp only [handle_post_template_jobs, createJobsAux, hce]
    refine ⟨hcreate, fun l hl => ?_⟩
    rw [hcreate] at hl
    exact BatchOutcome.noConfusion hl

/-- Witness for C4: a one-entry batch whose only poll raises at once. -/
theorem c4_transport_fails_batch_witness :
    (∀ (net : Nat → NetResult) (k fuel : Nat), net k = .transportError →
      poll_for_pdf net k (fuel + 1) = ([.request k], .transportError)) ∧
    (handle_post_template_jobs defaultSettings transportEnv "t"
      [.obj [("a", .num 1)]] [0]).2 = .raisedPoll ∧
    (∀ l, (handle_post_template_jobs defaultSettings transportEnv "t"
      [.obj [("a", .num 1)]] [0]).2 ≠ .results l) ∧
    (∀ (envc : BatchEnv) (d0 : Json) (rest : List Json) (schedc : List Nat),
      envc.create 0 = .transportError →
      (handle_post_template_jobs defaultSettings envc "t" (d0 :: rest) schedc).2 =
        .raisedCreate (.createTransport 0) ∧
      ∀ l, (handle_post_template_jobs defaultSettings envc "t" (d0 :: rest) schedc).2 ≠
        .results l) :=
  c4_transport_fails_batch defaultSettings transportEnv "t"
    [.obj [("a", .num 1)]] [0] 0 [.str "j"] rfl (by decide) (by simp) rfl

/-- C5 counterexample: for the entry `{"a": 1}` the constructed job
resource embeds the JSON serialization verbatim — it is not the
URL-encoded form the claim describes. -/
theorem c5_counterexample :
    template_url "t" (Json.obj [("a", Json.num 1)]) defaultTemplateServer =
      "https://demo.papero.io/templates/t?data=\x7b\"a\": 1\x7d" ∧
    urlquoteSpec (jsonDumps (Json.obj [("a", Json.num 1)])) = "%7B%22a%22%3A%201%7D" ∧
    template_url "t" (Json.obj [("a", Json.num 1)]) defaultTemplateServer ≠
      "https://demo.papero.io/templates/t?data=" ++
        urlquoteSpec (jsonDumps (Json.obj [("a", Json.num 1)])) := by
  refine ⟨rfl, rfl, by decide⟩

/-- C5 (amended): the job resource is
`{template_server}/{template}?data={json}` with the entry's JSON payload
inserted verbatim (not URL-encoded), submitted with `input_type = "url"`,
and the template server defaults to the fixed demo endpoint independently
of the configured `PAPERO_SERVER`. -/
theorem c5_template_request_raw (s : Settings) (template : String) (d : Json) :
    post_template_job s template d =
      ⟨api_url s "jobs/",
       defaultTemplateServer ++ "/" ++ template ++ "?data=" ++ jsonDumps d,
       "url"⟩ ∧
    defaultTemplateServer = "https://demo.papero.io/templates" ∧
    ∀ s' : Settings, (post_template_job s' template d).resource =
      (post_template_job s template d).resource :=
  ⟨rfl, rfl, fun _ => rfl⟩

/-- C1: whenever the batch resolves, the result list has one entry per
data entry; the i-th creation request was built from `dataEntries[i]`, and
the i-th result is the document URL the i-th job's poll loop resolves to —
for every schedule, i.e. regardless of completion order. -/
theorem c1_batch_order (s : Settings) (env : BatchEnv) (template : String)
    (data : List Json) (sched : List Nat) (pdfs : List Json)
    (h : (handle_post_template_jobs s env template data sched).2 = .results pdfs) :
    pdfs.length = data.length ∧
    ∀ i, i < data.length →
      (∃ d, data[i]? = some d ∧
        (handle_post_template_jobs s env template data sched).1[2 * i]? =
          some (.createRequest i (post_template_job s template d))) ∧
      ∃ v, pdfs[i]? = some v ∧
        ∃ fuel tr, poll_for_pdf (env.status i) 0 fuel = (tr, .found v) := by
  refine ⟨batch_results_length s env template data sched pdfs h, fun i hi =>
    ⟨?_, batch_results_poll s env template data sched pdfs h i hi⟩⟩
  obtain ⟨jids, hc⟩ := results_imp_create_ok s env template data sched pdfs h
  have hd := List.getElem?_eq_getElem hi
  refine ⟨data[i], hd, ?_⟩
  rw [handle_ok s env template data sched jids hc,
    createJobsAux_ok_events s env template data 0 jids hc]
  simp only [List.getElem?_append, length_createEvents]
  rw [if_pos (by omega)]
  simpa using createEvents_getElem_req s template data 0 i _ hd

/-- Witness for C1: the spec's two-entry scenario, under a schedule that
completes entry 2's job before entry 1's; the results still come back as
`["url1", "url2"]`. -/
theorem c1_batch_order_witness :
    ([Json.str "url1", Json.str "url2"].length = demoData.length ∧
    ∀ i, i < demoData.length →
      (∃ d, demoData[i]? = some d ∧
        (handle_post_template_jobs defaultSettings demoEnv "invoice" demoData
          [1, 0, 0]).1[2 * i]? =
          some (.createRequest i (post_template_job defaultSettings "invoice" d))) ∧
      ∃ v, [Json.str "url1", Json.str "url2"][i]? = some v ∧
        ∃ fuel tr, poll_for_pdf (demoEnv.status i) 0 fuel = (tr, .found v)) :=
  c1_batch_order defaultSettings demoEnv "invoice" demoData [1, 0, 0]
    [.str "url1", .str "url2"] rfl

/-- C9: the batch trace is the sequential creation events — request 0,
response 0, request 1, response 1, ... in input order — followed only by
poll events: no status poll is issued until every job is created, and
creation i+1 is sent only after creation i's response. -/
theorem c9_creations_before_polls (s : Settings) (env : BatchEnv)
    (template : String) (data : List Json) (sched : List Nat) (jids : List Json)
    (hc : (createJobsAux s env template 0 data).2 = .ok jids) :
    (∃ pollEvs,
      (handle_post_template_jobs s env template data sched).1 =
        createEvents s template 0 data ++ pollEvs ∧
      ∀ e ∈ pollEvs, e.isPoll = true) ∧
    ∀ i, i < data.length →
      (∃ d, data[i]? = some d ∧
        (createEvents s template 0 data)[2 * i]? =
          some (.createRequest i (post_template_job s template d))) ∧
      (createEvents s template 0 data)[2 * i + 1]? = some (.createResponse i) := by
  constructor
  · refine ⟨(runTasks (statusNets env jids.length)
      (List.replicate jids.length (.running 0)) sched).1, ?_,
      runTasks_events_isPoll _ _ _⟩
    rw [handle_ok s env template data sched jids hc,
      createJobsAux_ok_events s env template data 0 jids hc]
  · intro i hi
    have hd := List.getElem?_eq_getElem hi
    exact ⟨⟨data[i], hd,
        by simpa using createEvents_getElem_req s template data 0 i _ hd⟩,
      by simpa using createEvents_getElem_resp s template data 0 i hi⟩

/-- Witness for C9 on the two-entry demo batch. -/
theorem c9_creations_before_polls_witness :
    (∃ pollEvs,
      (handle_post_template_jobs defaultSettings demoEnv "invoice" demoData
        [1, 0, 0]).1 =
        createEvents defaultSettings "invoice" 0 demoData ++ pollEvs ∧
      ∀ e ∈ pollEvs, e.isPoll = true) ∧
    ∀ i, i < demoData.length →
      (∃ d, demoData[i]? = some d ∧
        (createEvents defaultSettings "invoice" 0 demoData)[2 * i]? =
          some (.createRequest i (post_template_job defaultSettings "invoice" d))) ∧
      (createEvents defaultSettings "invoice" 0 demoData)[2 * i + 1]? =
        some (.createResponse i) :=
  c9_creations_before_polls defaultSettings demoEnv "invoice" demoData
    [1, 0, 0] [.str "j", .str "j"] rfl

/-- C10: the single-entry template command is the batch path specialised
to one element — whenever the batch on `[d]` resolves, it yields exactly
one document URL and `add_job_template` returns precisely that first
element. -/
theorem c10_single_equals_batch_head (s : Settings) (env : BatchEnv)
    (template : String) (d : Json) (sched : List Nat) (pdfs : List Json)
    (h : (handle_post_template_jobs s env template [d] sched).2 = .results pdfs) :
    pdfs.length = 1 ∧
    ∃ v, pdfs[0]? = some v ∧ add_job_template s env template d sched = some v := by
  have hlen := batch_results_length s env template [d] sched pdfs h
  refine ⟨by simpa using hlen, ?_⟩
  obtain ⟨v, hv, _⟩ := batch_results_poll s env template [d] sched pdfs h 0 (by simp)
  exact ⟨v, hv, by simp [add_job_template, h, hv]⟩

/-- Witness for C10: a singleton batch resolving to one URL. -/
theorem c10_single_equals_batch_head_witness :
    ([Json.str "url1"].length = 1 ∧
    ∃ v, [Json.str "url1"][0]? = some v ∧
      add_job_template defaultSettings demoEnv "invoice" (.obj [("a", .num 1)])
        [0, 0] = some v) :=
  c10_single_equals_batch_head defaultSettings demoEnv "invoice"
    (.obj [("a", .num 1)]) [0, 0] [.str "url1"] rfl

end Papero
